import Mathlib

/-!
Verification of the flask-todo-cdk request-validation-and-persistence pipeline.

The repository contains two parallel implementations of the todo API:
* a single-file Flask app `src/lambda/todo_api.py` (validator `validate_todo_data`,
  handlers `create_todo`, `update_todo`, `delete_todo`, `get_todo`, `list_todos`), and
* a packaged app `src/lambda/todo_api/` (`models.py` with `TodoModel.validate` /
  `TodoModel.from_dict`, `database.py` with `TodoDatabase`, `todo_api.py` handlers).

Both are embedded below.  JSON payloads and DynamoDB items are association lists of
string keys to `JVal` values; the DynamoDB table is a list of items keyed by the
`todo_id` attribute.  Timestamps and generated UUIDs are passed in as parameters
(`now`, `gid`), modelling `datetime.utcnow().isoformat()` and `uuid.uuid4()`.
-/

/-- A decoded JSON scalar value, as relevant to the todo payloads.
`str`, `num`, `bool`, `null` cover the payload shapes the API distinguishes:
strings are the only values its validators fully accept, and the other
constructors exercise Python truthiness / `len()` / `.strip()` behaviour. -/
inductive JVal where
  | str (s : String)
  | num (n : Int)
  | bool (b : Bool)
  | null
  deriving DecidableEq, Repr

/-- JSON objects, Python dicts and DynamoDB items: association lists with
(unique, in practice) string keys. -/
abbrev Obj := List (String × JVal)

/-- Dictionary lookup, `data[k]` / `data.get(k)`: first matching key. -/
def oget : Obj → String → Option JVal
  | [], _ => none
  | (k, v) :: rest, key => if k = key then some v else oget rest key

/-- Python dict assignment `d[k] = v`: replace the value of an existing key in
place, else append the new binding. -/
def dictSet : Obj → String → JVal → Obj
  | [], key, val => [(key, val)]
  | (k, v) :: rest, key, val =>
      if k = key then (key, val) :: rest else (k, v) :: dictSet rest key val

/-- Python truthiness of a JSON value (`bool(v)`). -/
def JVal.truthy : JVal → Bool
  | .str s => s ≠ ""
  | .num n => n ≠ 0
  | .bool b => b
  | .null => false

/-- Python `len(v)`: defined for strings, raises `TypeError` otherwise
(modelled as `none`).  (Container values do not occur in the todo payloads.) -/
def JVal.pyLen : JVal → Option Nat
  | .str s => some s.length
  | _ => none

/-- Whether a JSON value is a string. -/
def JVal.isStr : JVal → Bool
  | .str _ => true
  | _ => false

/-- Python `str.strip()`: remove leading and trailing whitespace.  Defined
structurally over the character list (equivalent to `String.trim` on the
ASCII payloads in scope, but reducible by the kernel). -/
def pyStrip (s : String) : String :=
  ⟨((s.data.dropWhile Char.isWhitespace).reverse.dropWhile Char.isWhitespace).reverse⟩

/-- Python `str.lower()`, mapped over the character list. -/
def pyLower (s : String) : String :=
  ⟨s.data.map Char.toLower⟩

/-- `VALID_STATUSES` from `src/lambda/todo_api.py` line 33 and
`TodoModel.VALID_STATUSES` from `src/lambda/todo_api/models.py` line 16. -/
def VALID_STATUSES : List String := ["pending", "completed", "archived"]

/-- The record returned by a successful `validate_todo_data` call
(`src/lambda/todo_api.py` lines 76-80). -/
structure ValidatedData where
  title : String
  description : String
  status : String
  deriving DecidableEq, Repr

/-- Outcome of `validate_todo_data`: a cleaned record, a raised
`TodoValidationError`, or an uncaught `AttributeError` (from calling `.strip()`
or `.lower()` on a non-string payload value). -/
inductive VResult where
  | ok (v : ValidatedData)
  | err (msg : String)
  | attrError
  deriving DecidableEq, Repr

/-- `data.get(k, dflt)` followed by a string method (`.strip()` / `.lower()`):
yields the string when the value is absent (default) or a string, and `none`
(an `AttributeError`) when a non-string value is present. -/
def getStrOr (data : Obj) (k : String) (dflt : String) : Option String :=
  match oget data k with
  | none => some dflt
  | some (.str s) => some s
  | some _ => none

/-- `validate_todo_data` from `src/lambda/todo_api.py` lines 43-80.
`pyStrip` models `.strip()` and `pyLower` models `.lower()`. -/
def validate_todo_data (data : Obj) : VResult :=
  match getStrOr data "title" "" with
  | none => .attrError
  | some t =>
    let title := pyStrip t
    if title = "" then .err "Title is required"
    else if title.length > 200 then .err "Title must be 200 characters or less"
    else
      match getStrOr data "description" "" with
      | none => .attrError
      | some d =>
        let description := pyStrip d
        if description.length > 1000 then
          .err "Description must be 1000 characters or less"
        else
          match getStrOr data "status" "pending" with
          | none => .attrError
          | some st =>
            let status := pyLower st
            if VALID_STATUSES.contains status then
              .ok ⟨title, description, status⟩
            else .err "Status must be one of: pending, completed, archived"

/-- `create_todo_item` from `src/lambda/todo_api.py` lines 83-94: the dict
literal written on create, with `now` standing for
`datetime.utcnow().isoformat() + 'Z'`. -/
def create_todo_item (todo_id : String) (v : ValidatedData) (now : String) : Obj :=
  [("todo_id", .str todo_id), ("title", .str v.title),
   ("description", .str v.description), ("status", .str v.status),
   ("created_at", .str now), ("updated_at", .str now)]

/-- The DynamoDB table: a list of items, keyed by the `todo_id` attribute. -/
abbrev Store := List Obj

/-- Whether an item's partition key equals `id`. -/
def hasId (id : String) (it : Obj) : Bool :=
  oget it "todo_id" = some (.str id)

/-- `table.get_item(Key={'todo_id': id})`: the item with that key, if any. -/
def get_item (db : Store) (id : String) : Option Obj :=
  db.find? (hasId id)

/-- `table.put_item(Item=item)`: unconditional keyed upsert — replaces any
item with the same `todo_id`, else appends. -/
def put_item (db : Store) (item : Obj) : Store :=
  match oget item "todo_id" with
  | some key => db.filter (fun it => !(oget it "todo_id" = some key : Bool)) ++ [item]
  | none => db ++ [item]

/-- `table.delete_item(Key={'todo_id': id})`: remove the item with that key. -/
def delete_item (db : Store) (id : String) : Store :=
  db.filter (fun it => !hasId id it)

/-- Result of the single-file create handler (`create_todo`,
`src/lambda/todo_api.py` lines 202-230): 201 with the created item, 400 with a
validation message, or 500 from the generic exception branch. -/
inductive CrResult where
  | created (item : Obj)
  | valErr (msg : String)
  | serverErr
  deriving DecidableEq, Repr

/-- HTTP status code of a create response. -/
def CrResult.code : CrResult → Nat
  | .created _ => 201
  | .valErr _ => 400
  | .serverErr => 500

/-- `create_todo` from `src/lambda/todo_api.py` lines 202-230 (the JSON body
already decoded to `data`; `gid` models `str(uuid.uuid4())`, `now` the
timestamp).  A `TodoValidationError` yields 400; an uncaught `AttributeError`
falls to the generic `except Exception` branch, 500. -/
def sf_create_todo (db : Store) (data : Obj) (gid now : String) : Store × CrResult :=
  match validate_todo_data data with
  | .err m => (db, .valErr m)
  | .attrError => (db, .serverErr)
  | .ok v =>
    let item := create_todo_item gid v now
    (put_item db item, .created item)

/-- Result of the get-by-id handlers: 200 with the item or 404. -/
inductive GetResult where
  | found (item : Obj)
  | notFound
  deriving DecidableEq, Repr

/-- HTTP status code of a get response. -/
def GetResult.code : GetResult → Nat
  | .found _ => 200
  | .notFound => 404

/-- `get_todo` from `src/lambda/todo_api.py` lines 183-199; the packaged
`get_todo` (`src/lambda/todo_api/todo_api.py` lines 93-107, over
`TodoDatabase.get_todo`) has the same semantics and is modelled by the same
function. -/
def sf_get_todo (db : Store) (id : String) : GetResult :=
  match get_item db id with
  | some it => .found it
  | none => .notFound

/-- Result of the delete handlers: 200 with a confirmation message or 404. -/
inductive DelResult where
  | deleted
  | notFound
  deriving DecidableEq, Repr

/-- HTTP status code of a delete response. -/
def DelResult.code : DelResult → Nat
  | .deleted => 200
  | .notFound => 404

/-- `delete_todo` from `src/lambda/todo_api.py` lines 277-297: existence check
via `get_item`, then keyed delete.  The packaged `delete_todo`
(`src/lambda/todo_api/todo_api.py` lines 169-186) has the same semantics. -/
def sf_delete_todo (db : Store) (id : String) : Store × DelResult :=
  match get_item db id with
  | none => (db, .notFound)
  | some _ => (delete_item db id, .deleted)

/-- Result of the single-file update handler: 200 with the post-update item,
404, 400 with a validation message, or 500. -/
inductive UpdResult where
  | ok (item : Obj)
  | notFound
  | valErr (msg : String)
  | serverErr
  deriving DecidableEq, Repr

/-- HTTP status code of an update response. -/
def UpdResult.code : UpdResult → Nat
  | .ok _ => 200
  | .notFound => 404
  | .valErr _ => 400
  | .serverErr => 500

/-- `update_todo` from `src/lambda/todo_api.py` lines 233-274: validate (the
same `validate_todo_data` as create), confirm existence, then build the
replacement dict literal of lines 252-259 — a full replace whose
`title`/`description`/`status` all come from the validated data — and
`put_item` it.  Reading `existing_todo['created_at']` on an item without that
attribute would raise `KeyError`, reaching the generic 500 branch. -/
def sf_update_todo (db : Store) (id : String) (data : Obj) (now : String) :
    Store × UpdResult :=
  match validate_todo_data data with
  | .err m => (db, .valErr m)
  | .attrError => (db, .serverErr)
  | .ok v =>
    match get_item db id with
    | none => (db, .notFound)
    | some existing =>
      match oget existing "created_at" with
      | none => (db, .serverErr)
      | some ca =>
        let updated : Obj :=
          [("todo_id", .str id), ("title", .str v.title),
           ("description", .str v.description), ("status", .str v.status),
           ("created_at", ca), ("updated_at", .str now)]
        (put_item db updated, .ok updated)

/-- Query-string parameters of a request. -/
abbrev QueryArgs := List (String × String)

/-- `request.args.get(k)`: the parameter, if present. -/
def argGet : QueryArgs → String → Option String
  | [], _ => none
  | (k, v) :: rest, key => if k = key then some v else argGet rest key

/-- `request.args.get(k, dflt)`. -/
def argGetD (args : QueryArgs) (key dflt : String) : String :=
  (argGet args key).getD dflt

/-- Digit-string accumulator for `pyInt`; `none` when a non-digit occurs or no
digit was seen. -/
def parseDigits : List Char → Option Nat → Option Nat
  | [], acc => acc
  | c :: rest, acc =>
      if c.isDigit then parseDigits rest (some ((acc.getD 0) * 10 + (c.toNat - 48)))
      else none

/-- Python `int(s)`: optional surrounding whitespace and sign, then decimal
digits; `none` models the raised `ValueError`. -/
def pyInt (s : String) : Option Int :=
  match (pyStrip s).data with
  | '-' :: rest => (parseDigits rest none).map (fun n => -(n : Int))
  | '+' :: rest => (parseDigits rest none).map (fun n => (n : Int))
  | cs => (parseDigits cs none).map (fun n => (n : Int))

/-- The `limit` handling shared by both list handlers
(`src/lambda/todo_api.py` lines 138-146, `src/lambda/todo_api/todo_api.py`
lines 67-75): `int(limit)`, with non-numeric or out-of-[1,100] input silently
reset to 50. -/
def parseLimit (raw : String) : Nat :=
  match pyInt raw with
  | some n => if n < 1 ∨ n > 100 then 50 else n.toNat
  | none => 50

/-- The sort key `x.get('created_at', '')` used by the single-file list
handler and by the (status, created_at) index.  Items written by this system
always carry a string `created_at`; a non-string value falls back to `""`
(in Python a non-string key would raise on comparison, which never happens for
system-written items).  The key is compared as its character list: Python
string comparison is exactly the lexicographic order on the characters. -/
def getCA (it : Obj) : List Char :=
  (match oget it "created_at" with
   | some (.str s) => s
   | _ => "").data

/-- "created_at descending" comparison: `a` before `b` iff `b`'s key ≤ `a`'s.
`List.insertionSort caDesc` is a stable descending sort, the observable
behaviour of Python's `todos.sort(key=lambda x: x.get('created_at', ''),
reverse=True)`. -/
def caDesc (a b : Obj) : Prop := getCA b ≤ getCA a

instance : DecidableRel caDesc := fun a b =>
  inferInstanceAs (Decidable (getCA b ≤ getCA a))

instance : IsTotal Obj caDesc := ⟨fun a b => le_total (getCA b) (getCA a)⟩

instance : IsTrans Obj caDesc := ⟨fun _ _ _ h1 h2 => le_trans h2 h1⟩

/-- "created_at ascending", the default order of a DynamoDB query on the
(status, created_at) index when `ScanIndexForward` is not set. -/
def caAsc (a b : Obj) : Prop := getCA a ≤ getCA b

instance : DecidableRel caAsc := fun a b =>
  inferInstanceAs (Decidable (getCA a ≤ getCA b))

instance : IsTotal Obj caAsc := ⟨fun a b => le_total (getCA a) (getCA b)⟩

instance : IsTrans Obj caAsc := ⟨fun _ _ _ h1 h2 => le_trans h1 h2⟩

/-- A DynamoDB `query` on `StatusDateIndex` with `ScanIndexForward=False`
(`src/lambda/todo_api.py` lines 151-158): the items with the given status, in
created_at-descending index order, truncated at `Limit`. -/
def queryByStatusDesc (db : Store) (status : String) (limit : Nat) : List Obj :=
  ((db.filter (fun it => oget it "status" = some (.str status))).insertionSort
    caDesc).take limit

/-- A DynamoDB `query` on `StatusDateIndex` without `ScanIndexForward`
(`src/lambda/todo_api/database.py` lines 171-179): ascending index order,
truncated at `Limit`. -/
def queryByStatusAsc (db : Store) (status : String) (limit : Nat) : List Obj :=
  ((db.filter (fun it => oget it "status" = some (.str status))).insertionSort
    caAsc).take limit

/-- A DynamoDB `scan` with `Limit`: the first `limit` items in internal table
order (modelled as the list order of the store). -/
def scan_limit (db : Store) (limit : Nat) : List Obj :=
  db.take limit

/-- The 200 body of the single-file list handler:
`{'todos': ..., 'count': ..., 'status_filter': ...}`. -/
structure SfListResp where
  todos : List Obj
  count : Nat
  status_filter : Option String
  deriving DecidableEq, Repr

/-- `list_todos` from `src/lambda/todo_api.py` lines 132-180 (store-error
branches aside, it always answers 200).  The status filter is lowercased; a
filter that is empty or not a valid status selects the scan branch and the
client-side sort of the returned page. -/
def sf_list_todos (args : QueryArgs) (db : Store) : SfListResp :=
  let status_filter := pyLower (argGetD args "status" "")
  let limit := parseLimit (argGetD args "limit" "50")
  let todos :=
    if status_filter ≠ "" ∧ VALID_STATUSES.contains status_filter then
      queryByStatusDesc db status_filter limit
    else
      scan_limit db limit
  let todos2 :=
    if status_filter = "" ∨ ¬VALID_STATUSES.contains status_filter then
      todos.insertionSort caDesc
    else todos
  ⟨todos2, todos2.length,
   if VALID_STATUSES.contains status_filter then some status_filter else none⟩

/-- `TodoDatabase.list_todos` from `src/lambda/todo_api/database.py` lines
143-198, restricted to requests without a pagination token (the claims under
study never supply `next_token`; the `ExclusiveStartKey` plumbing is not
modelled).  A truthy status queries the index, else a bounded scan — with no
client-side sort in either branch.  Returns the page of items (the `todos`
field of the result dict; `count` is its length). -/
def db_list_todos (db : Store) (status : Option String) (limit : Nat) : List Obj :=
  match status with
  | some s => if s ≠ "" then queryByStatusAsc db s limit else scan_limit db limit
  | none => scan_limit db limit

/-- Result of the packaged list handler: 200 with the page, or 400 for an
invalid status filter. -/
inductive PkgListResult where
  | ok (todos : List Obj) (count : Nat)
  | badStatus (msg : String)
  deriving DecidableEq, Repr

/-- HTTP status code of a packaged list response. -/
def PkgListResult.code : PkgListResult → Nat
  | .ok _ _ => 200
  | .badStatus _ => 400

/-- `list_todos` from `src/lambda/todo_api/todo_api.py` lines 54-91 (without
`next_token`): a present, truthy status that is not a valid status yields 400
with a message listing the valid statuses; otherwise the page from
`TodoDatabase.list_todos` is returned unchanged. -/
def pkg_list_todos (args : QueryArgs) (db : Store) : PkgListResult :=
  let status := argGet args "status"
  let limit := parseLimit (argGetD args "limit" "50")
  match status with
  | some s =>
    if s ≠ "" ∧ ¬VALID_STATUSES.contains s then
      .badStatus "Invalid status. Must be one of: pending, completed, archived"
    else
      let todos := db_list_todos db (some s) limit
      .ok todos todos.length
  | none =>
    let todos := db_list_todos db none limit
    .ok todos todos.length



/-- Outcome of `TodoModel.validate` (`src/lambda/todo_api/models.py` lines
29-53): the `(True, None)` / `(False, message)` pair, plus a `tyErr` case for
an uncaught `TypeError` from `len()` on a non-string value. -/
inductive MValid where
  | valid
  | invalid (msg : String)
  | tyErr
  deriving DecidableEq, Repr

/-- The status check of `TodoModel.validate` (models.py lines 50-51): Python
`data['status'] not in VALID_STATUSES` compares the raw JSON value against the
three strings (so only the exact lowercase strings pass). -/
def mv_status (data : Obj) : MValid :=
  match oget data "status" with
  | some v =>
      if (VALID_STATUSES.map JVal.str).contains v then .valid
      else .invalid "Status must be one of: pending, completed, archived"
  | none => .valid

/-- The description check of `TodoModel.validate` (models.py lines 47-48):
`if 'description' in data and data['description'] and len(data['description']) > 1000`
— a falsy description (empty string, 0, False, None) short-circuits `len`. -/
def mv_desc (data : Obj) : MValid :=
  match oget data "description" with
  | some v =>
      if v.truthy then
        match v.pyLen with
        | none => .tyErr
        | some n =>
          if n > 1000 then .invalid "Description must be less than 1000 characters"
          else mv_status data
      else mv_status data
  | none => mv_status data

/-- The title checks of `TodoModel.validate` (models.py lines 40-45):
`title` is required only when `is_update` is false; a present title must be
truthy (`not data['title']` fails falsy values, with no whitespace trimming)
and `len(data['title']) <= 200`. -/
def mv_title (data : Obj) (is_update : Bool) : MValid :=
  match oget data "title" with
  | none =>
      if is_update then mv_desc data else .invalid "Title is required"
  | some v =>
      if v.truthy then
        match v.pyLen with
        | none => .tyErr
        | some n =>
          if n > 200 then .invalid "Title must be between 1 and 200 characters"
          else mv_desc data
      else .invalid "Title must be between 1 and 200 characters"

/-- `TodoModel.validate` from `src/lambda/todo_api/models.py` lines 29-53. -/
def TodoModel_validate (data : Obj) (is_update : Bool) : MValid :=
  mv_title data is_update

/-- `TodoModel.from_dict` from `src/lambda/todo_api/models.py` lines 79-101:
validate (as a create), then build the item dict — the raw `data['title']`,
`data.get('description', '')` and `data.get('status', 'pending')` values are
stored without any trimming or case normalization.  `gid` models
`cls.generate_id()` and `ts` models `cls.get_timestamp()`.  `none` models a
raised `ValueError` (validation failure) or propagated `TypeError`; the
`title`-absent inner case is unreachable after a create-mode validation. -/
def TodoModel_from_dict (data : Obj) (gid ts : String) : Option Obj :=
  match TodoModel_validate data false with
  | .valid =>
    match oget data "title" with
    | some t =>
        some [("todo_id", .str gid), ("title", t),
              ("description", (oget data "description").getD (.str "")),
              ("status", (oget data "status").getD (.str "pending")),
              ("created_at", .str ts), ("updated_at", .str ts)]
    | none => none
  | _ => none

/-- The `UpdateExpression` built by `TodoDatabase.update_todo`
(`src/lambda/todo_api/database.py` lines 88-105) applied to the stored item:
every key of `updates` except `todo_id` and `created_at` is SET to its payload
value (DynamoDB SET replaces an existing attribute or creates a new one). -/
def applyUpdates (item : Obj) (updates : Obj) : Obj :=
  updates.foldl
    (fun acc kv =>
      if kv.1 = "todo_id" ∨ kv.1 = "created_at" then acc
      else dictSet acc kv.1 kv.2)
    item

/-- Result of the packaged create handler: 201 with the created item, 400 with
a message, or 500. -/
inductive PkgCrResult where
  | created (item : Obj)
  | badRequest (msg : String)
  | serverErr
  deriving DecidableEq, Repr

/-- HTTP status code of a packaged create response. -/
def PkgCrResult.code : PkgCrResult → Nat
  | .created _ => 201
  | .badRequest _ => 400
  | .serverErr => 500

/-- `create_todo` from `src/lambda/todo_api/todo_api.py` lines 109-136:
`if not data` (falsy, i.e. empty dict) → 400; `TodoModel.validate` failure →
400; a propagated `TypeError` → the generic 500 branch; otherwise the item
built by `TodoModel.from_dict` is written with `put_item` and returned, 201.
(`from_dict`'s internal re-validation repeats the handler's and cannot fail;
its unreachable title-absent case is collapsed into `serverErr`.) -/
def pkg_create_todo (db : Store) (data : Obj) (gid ts : String) :
    Store × PkgCrResult :=
  if data = [] then (db, .badRequest "No data provided")
  else
    match TodoModel_validate data false with
    | .invalid m => (db, .badRequest m)
    | .tyErr => (db, .serverErr)
    | .valid =>
      match TodoModel_from_dict data gid ts with
      | some item => (put_item db item, .created item)
      | none => (db, .serverErr)

/-- Result of the packaged update handler: 200 with the post-update item
(`ReturnValues='ALL_NEW'`), 400, 404, or 500. -/
inductive PkgUpdResult where
  | ok (item : Obj)
  | badRequest (msg : String)
  | notFound
  | serverErr
  deriving DecidableEq, Repr

/-- HTTP status code of a packaged update response. -/
def PkgUpdResult.code : PkgUpdResult → Nat
  | .ok _ => 200
  | .badRequest _ => 400
  | .notFound => 404
  | .serverErr => 500

/-- `update_todo` from `src/lambda/todo_api/todo_api.py` lines 138-167 over
`TodoDatabase.update_todo`: `if not data` → 400; validate with
`is_update=True` (400 on failure, 500 on `TypeError`); existence check → 404;
then `data['updated_at'] = timestamp` and the raw payload is forwarded to the
adapter, which SETs every key except `todo_id`/`created_at` onto the stored
item and returns the post-update record. -/
def pkg_update_todo (db : Store) (id : String) (data : Obj) (ts : String) :
    Store × PkgUpdResult :=
  if data = [] then (db, .badRequest "No data provided")
  else
    match TodoModel_validate data true with
    | .invalid m => (db, .badRequest m)
    | .tyErr => (db, .serverErr)
    | .valid =>
      match get_item db id with
      | none => (db, .notFound)
      | some existing =>
        let data2 := dictSet data "updated_at" (.str ts)
        let updated := applyUpdates existing data2
        (put_item db updated, .ok updated)

/-- The key list of an object (the item's field set, in order). -/
def keys (o : Obj) : List String := o.map Prod.fst

/-- HTTP status code of a single-file list response: the handler's success
path always answers 200 (its only non-200 branches require a store-level
`ClientError`, which the in-memory store model never raises). -/
def SfListResp.code (_ : SfListResp) : Nat := 200

/-- Example item: created first (older `created_at`). -/
def exA : Obj :=
  [("todo_id", .str "a"), ("title", .str "first"), ("description", .str ""),
   ("status", .str "pending"), ("created_at", .str "2023-01-01T00:00:00Z"),
   ("updated_at", .str "2023-01-01T00:00:00Z")]

/-- Example item: created second (newer `created_at`). -/
def exB : Obj :=
  [("todo_id", .str "b"), ("title", .str "second"), ("description", .str ""),
   ("status", .str "pending"), ("created_at", .str "2023-01-02T00:00:00Z"),
   ("updated_at", .str "2023-01-02T00:00:00Z")]

/-- Example stored item with a non-empty description and non-default status,
used to exercise the update handlers. -/
def ex0 : Obj :=
  [("todo_id", .str "i1"), ("title", .str "old title"),
   ("description", .str "keep me"), ("status", .str "completed"),
   ("created_at", .str "2023-01-01T00:00:00Z"),
   ("updated_at", .str "2023-01-01T00:00:00Z")]

/-! ### Helper lemmas about the dictionary and store primitives -/

theorem oget_dictSet_self (d : Obj) (k : String) (v : JVal) :
    oget (dictSet d k v) k = some v := by
  induction d with
  | nil => simp [dictSet, oget]
  | cons p rest ih =>
    obtain ⟨pk, pv⟩ := p
    by_cases h : pk = k
    · simp [dictSet, h, oget]
    · simp [dictSet, h, oget, ih]

theorem oget_dictSet_ne (d : Obj) (k k' : String) (v : JVal) (h : k' ≠ k) :
    oget (dictSet d k v) k' = oget d k' := by
  induction d with
  | nil => simp [dictSet, oget, h, Ne.symm h]
  | cons p rest ih =>
    obtain ⟨pk, pv⟩ := p
    by_cases hp : pk = k
    · subst hp
      simp [dictSet, oget, h, Ne.symm h]
    · simp [dictSet, hp, oget, ih]

theorem mem_keys_dictSet {d : Obj} {k k' : String} {v : JVal}
    (h : k' ∈ keys (dictSet d k v)) : k' = k ∨ k' ∈ keys d := by
  induction d with
  | nil => simpa [dictSet, keys] using h
  | cons p rest ih =>
    obtain ⟨pk, pv⟩ := p
    by_cases hp : pk = k
    · subst hp
      simpa [dictSet, keys] using h
    · simp only [dictSet, hp, if_false, keys, List.map_cons, List.mem_cons] at h ⊢
      rcases h with h | h
      · exact Or.inr (Or.inl h)
      · rcases ih h with h' | h'
        · exact Or.inl h'
        · exact Or.inr (Or.inr h')

theorem nodup_keys_dictSet {d : Obj} (k : String) (v : JVal)
    (h : (keys d).Nodup) : (keys (dictSet d k v)).Nodup := by
  induction d with
  | nil => simp [dictSet, keys]
  | cons p rest ih =>
    obtain ⟨pk, pv⟩ := p
    simp only [keys, List.map_cons, List.nodup_cons] at h
    by_cases hp : pk = k
    · subst hp
      simpa [dictSet, keys, List.nodup_cons] using h
    · simp only [dictSet, hp, if_false, keys, List.map_cons, List.nodup_cons]
      refine ⟨fun hmem => ?_, ih h.2⟩
      rcases mem_keys_dictSet hmem with h' | h'
      · exact hp h'
      · exact h.1 h'

theorem applyUpdates_cons (item : Obj) (p : String × JVal) (rest : Obj) :
    applyUpdates item (p :: rest) =
      applyUpdates
        (if p.1 = "todo_id" ∨ p.1 = "created_at" then item
         else dictSet item p.1 p.2) rest := rfl

theorem oget_applyUpdates_not_mem (item updates : Obj) (k : String)
    (h : k ∉ keys updates) :
    oget (applyUpdates item updates) k = oget item k := by
  induction updates generalizing item with
  | nil => rfl
  | cons p rest ih =>
    obtain ⟨pk, pv⟩ := p
    simp only [keys, List.map_cons, List.mem_cons, not_or] at h
    rw [applyUpdates_cons]
    by_cases hp : pk = "todo_id" ∨ pk = "created_at"
    · simpa [hp] using ih item (by simpa [keys] using h.2)
    · simp only [hp, if_false]
      rw [ih _ (by simpa [keys] using h.2)]
      exact oget_dictSet_ne _ _ _ _ h.1

theorem oget_applyUpdates_excluded (item updates : Obj) (k : String)
    (hk : k = "todo_id" ∨ k = "created_at") :
    oget (applyUpdates item updates) k = oget item k := by
  induction updates generalizing item with
  | nil => rfl
  | cons p rest ih =>
    obtain ⟨pk, pv⟩ := p
    rw [applyUpdates_cons]
    by_cases hp : pk = "todo_id" ∨ pk = "created_at"
    · simpa [hp] using ih item
    · simp only [hp, if_false]
      rw [ih]
      apply oget_dictSet_ne
      rcases hk with h | h <;> subst h <;>
        simpa [not_or] using fun hh => hp (by simp [hh])

theorem oget_applyUpdates_of_oget (item updates : Obj) (k : String) (v : JVal)
    (hnd : (keys updates).Nodup) (h1 : k ≠ "todo_id") (h2 : k ≠ "created_at")
    (hv : oget updates k = some v) :
    oget (applyUpdates item updates) k = some v := by
  induction updates generalizing item with
  | nil => simp [oget] at hv
  | cons p rest ih =>
    obtain ⟨pk, pv⟩ := p
    simp only [keys, List.map_cons, List.nodup_cons] at hnd
    rw [applyUpdates_cons]
    by_cases hpk : pk = k
    · subst hpk
      have hv' : pv = v := by simpa [oget] using hv
      subst hv'
      have hexc : ¬(pk = "todo_id" ∨ pk = "created_at") := by
        simp [h1, h2]
      simp only [hexc, if_false]
      rw [oget_applyUpdates_not_mem _ _ _ (by simpa [keys] using hnd.1)]
      exact oget_dictSet_self _ _ _
    · have hv' : oget rest k = some v := by simpa [oget, hpk] using hv
      by_cases hp : pk = "todo_id" ∨ pk = "created_at"
      · simpa [hp] using ih _ hnd.2 hv'
      · simp only [hp, if_false]
        exact ih _ hnd.2 hv'

theorem get_item_delete_item (db : Store) (id : String) :
    get_item (delete_item db id) id = none := by
  induction db with
  | nil => rfl
  | cons it rest ih =>
    by_cases h : hasId id it
    · simpa [delete_item, List.filter, h] using ih
    · simp only [delete_item, List.filter] at ih ⊢
      simp [h, get_item, List.find?, ih]

/-! ### Inversion lemmas for the two validators -/

theorem validate_ok_inv (data : Obj) (r : ValidatedData)
    (h : validate_todo_data data = .ok r) :
    ∃ t d st, getStrOr data "title" "" = some t ∧
      getStrOr data "description" "" = some d ∧
      getStrOr data "status" "pending" = some st ∧
      r = ⟨pyStrip t, pyStrip d, pyLower st⟩ ∧
      pyStrip t ≠ "" ∧ (pyStrip t).length ≤ 200 ∧ (pyStrip d).length ≤ 1000 ∧
      VALID_STATUSES.contains (pyLower st) = true := by
  unfold validate_todo_data at h
  rcases ht : getStrOr data "title" "" with _ | t <;> rw [ht] at h <;>
    dsimp only at h
  · exact VResult.noConfusion h
  · rcases hd : getStrOr data "description" "" with _ | d <;> rw [hd] at h <;>
      dsimp only at h
    · split_ifs at h <;> exact VResult.noConfusion h
    · rcases hst : getStrOr data "status" "pending" with _ | st <;>
        rw [hst] at h <;> dsimp only at h
      · split_ifs at h <;> exact VResult.noConfusion h
      · split_ifs at h with h1 h2 h3 h4 <;>
          first
          | exact VResult.noConfusion h
          | (injection h with hh
             exact ⟨t, d, st, rfl, rfl, rfl, hh.symm, h1, by omega, by omega, h4⟩)

theorem mv_status_forms (data : Obj) :
    mv_status data = .valid ∨
    mv_status data = .invalid "Status must be one of: pending, completed, archived" := by
  unfold mv_status
  rcases oget data "status" with _ | v
  · exact Or.inl rfl
  · dsimp only
    split_ifs with h
    · exact Or.inl rfl
    · exact Or.inr rfl

theorem mv_desc_forms (data : Obj) :
    mv_desc data = .valid ∨ mv_desc data = .tyErr ∨
    mv_desc data = .invalid "Description must be less than 1000 characters" ∨
    mv_desc data = .invalid "Status must be one of: pending, completed, archived" := by
  unfold mv_desc
  rcases oget data "description" with _ | v
  · rcases mv_status_forms data with h | h <;> simp [h]
  · dsimp only
    split_ifs with h1
    · rcases hl : v.pyLen with _ | n
      · simp
      · dsimp only
        split_ifs with h2
        · simp
        · rcases mv_status_forms data with h | h <;> simp [h]
    · rcases mv_status_forms data with h | h <;> simp [h]

theorem mv_title_absent_create (data : Obj) (h : oget data "title" = none) :
    TodoModel_validate data false = .invalid "Title is required" := by
  unfold TodoModel_validate mv_title
  rw [h]
  rfl

theorem mv_title_absent_update (data : Obj) (h : oget data "title" = none) :
    TodoModel_validate data true = mv_desc data := by
  unfold TodoModel_validate mv_title
  rw [h]
  rfl

theorem mv_title_present_valid (data : Obj) (v : JVal) (u : Bool)
    (hv : oget data "title" = some v)
    (h : TodoModel_validate data u = .valid) :
    ∃ s, v = .str s ∧ s ≠ "" ∧ s.length ≤ 200 := by
  unfold TodoModel_validate mv_title at h
  rw [hv] at h
  dsimp only at h
  rcases v with s | n | b | _
  · by_cases hs : s = ""
    · subst hs
      simp [JVal.truthy] at h
    · simp [JVal.truthy, JVal.pyLen, hs] at h
      by_cases hl : s.length > 200
      · rw [if_pos hl] at h
        exact MValid.noConfusion h
      · exact ⟨s, rfl, hs, by omega⟩
  · by_cases hn : n = 0
    · simp [hn, JVal.truthy] at h
    · simp [JVal.truthy, hn, JVal.pyLen] at h
  · cases b <;> simp [JVal.truthy, JVal.pyLen] at h
  · simp [JVal.truthy] at h

/-! ### Claim theorems -/

/-- C7: After a successful delete of an id, a subsequent get by that id
returns 404 (Todo not found), and a second delete of the same id also answers
404 without failing and without touching the store.  Both the single-file and
the packaged handlers share these delete/get semantics. -/
theorem C7_delete_then_get_not_found (db : Store) (id : String)
    (h : (sf_delete_todo db id).2 = .deleted) :
    sf_get_todo (sf_delete_todo db id).1 id = .notFound ∧
    (sf_get_todo (sf_delete_todo db id).1 id).code = 404 ∧
    (sf_delete_todo (sf_delete_todo db id).1 id).2 = .notFound ∧
    ((sf_delete_todo (sf_delete_todo db id).1 id).2).code = 404 ∧
    (sf_delete_todo (sf_delete_todo db id).1 id).1 = (sf_delete_todo db id).1 := by
  rcases hg : get_item db id with _ | it
  · unfold sf_delete_todo at h
    rw [hg] at h
    exact absurd h (by simp)
  · have h1 : (sf_delete_todo db id).1 = delete_item db id := by
      unfold sf_delete_todo
      rw [hg]
    have h2 : get_item (delete_item db id) id = none := get_item_delete_item db id
    rw [h1]
    have hga : sf_get_todo (delete_item db id) id = .notFound := by
      unfold sf_get_todo
      rw [h2]
    have hdb : sf_delete_todo (delete_item db id) id = (delete_item db id, .notFound) := by
      unfold sf_delete_todo
      rw [h2]
    exact ⟨hga, by rw [hga]; rfl, by rw [hdb], by rw [hdb]; rfl, by rw [hdb]⟩

/-- C7 witness: deleting the only item of a one-item store succeeds, after
which get and a second delete both answer 404. -/
theorem C7_witness :
    (sf_delete_todo [exA] "a").2 = .deleted ∧
    sf_get_todo (sf_delete_todo [exA] "a").1 "a" = .notFound ∧
    (sf_delete_todo (sf_delete_todo [exA] "a").1 "a").2 = .notFound := by
  have h : (sf_delete_todo [exA] "a").2 = .deleted := by decide
  have hc := C7_delete_then_get_not_found [exA] "a" h
  exact ⟨h, hc.1, hc.2.2.1⟩

/-- C6: A valid create payload that omits `status` yields 201 with an item
whose status is "pending", whose `created_at` equals `updated_at` (both the
request timestamp), and whose id is the server-generated one — any
client-supplied id key in the payload is simply never read.  The conjunction
covers the single-file handler and the packaged handler. -/
theorem C6_create_defaults (db : Store) (data : Obj) (gid now : String)
    (r : ValidatedData)
    (hok : validate_todo_data data = .ok r)
    (hs : oget data "status" = none) :
    (sf_create_todo db data gid now).2 = .created (create_todo_item gid r now) ∧
    ((sf_create_todo db data gid now).2).code = 201 ∧
    oget (create_todo_item gid r now) "status" = some (.str "pending") ∧
    oget (create_todo_item gid r now) "created_at" = some (.str now) ∧
    oget (create_todo_item gid r now) "updated_at" = some (.str now) ∧
    oget (create_todo_item gid r now) "todo_id" = some (.str gid) ∧
    (∀ (db2 : Store) (ts : String), data ≠ [] →
      TodoModel_validate data false = .valid →
      ∃ item, pkg_create_todo db2 data gid ts = (put_item db2 item, .created item) ∧
        oget item "status" = some (.str "pending") ∧
        oget item "created_at" = some (.str ts) ∧
        oget item "updated_at" = some (.str ts) ∧
        oget item "todo_id" = some (.str gid)) := by
  have hstat : r.status = "pending" := by
    rcases validate_ok_inv data r hok with ⟨t, d, st, ht, hd, hst, hr, -, -, -, -⟩
    have : st = "pending" := by
      unfold getStrOr at hst
      rw [hs] at hst
      exact (Option.some.injEq _ _ ▸ hst).symm
    subst this
    rw [hr]
    exact (show pyLower "pending" = "pending" by decide)
  have hsf : (sf_create_todo db data gid now).2 = .created (create_todo_item gid r now) := by
    unfold sf_create_todo
    rw [hok]
  refine ⟨hsf, by rw [hsf]; rfl, ?_, rfl, rfl, rfl, ?_⟩
  · show some (JVal.str r.status) = some (.str "pending")
    rw [hstat]
  · intro db2 ts hne hval
    have htp : ∃ t, oget data "title" = some t := by
      rcases ho : oget data "title" with _ | t
      · rw [mv_title_absent_create data ho] at hval
        exact absurd hval (by simp)
      · exact ⟨t, rfl⟩
    rcases htp with ⟨t, ht⟩
    have hfd : TodoModel_from_dict data gid ts =
        some [("todo_id", .str gid), ("title", t),
              ("description", (oget data "description").getD (.str "")),
              ("status", (oget data "status").getD (.str "pending")),
              ("created_at", .str ts), ("updated_at", .str ts)] := by
      unfold TodoModel_from_dict
      rw [hval, ht]
    refine ⟨[("todo_id", .str gid), ("title", t),
             ("description", (oget data "description").getD (.str "")),
             ("status", (oget data "status").getD (.str "pending")),
             ("created_at", .str ts), ("updated_at", .str ts)], ?_, ?_, rfl, rfl, rfl⟩
    · unfold pkg_create_todo
      rw [if_neg hne, hval, hfd]
    · show some ((oget data "status").getD (.str "pending")) = some (.str "pending")
      rw [hs]
      rfl

/-- C6 witness: POST `{"title": "Buy milk", "todo_id": "client-id"}` — a valid
body omitting `status` and carrying a client-supplied id — creates an item
with status "pending", equal timestamps, and the server-generated id, in both
implementations. -/
theorem C6_witness :
    (sf_create_todo [] [("title", .str "Buy milk"), ("todo_id", .str "client-id")]
        "srv-id" "T").2 =
      .created (create_todo_item "srv-id" ⟨"Buy milk", "", "pending"⟩ "T") ∧
    oget (create_todo_item "srv-id" ⟨"Buy milk", "", "pending"⟩ "T") "todo_id" =
      some (.str "srv-id") ∧
    (∃ item,
      pkg_create_todo [] [("title", .str "Buy milk"), ("todo_id", .str "client-id")]
          "srv-id" "T" = (put_item [] item, .created item) ∧
      oget item "status" = some (.str "pending") ∧
      oget item "created_at" = some (.str "T") ∧
      oget item "updated_at" = some (.str "T") ∧
      oget item "todo_id" = some (.str "srv-id")) := by
  have hc := C6_create_defaults [] [("title", .str "Buy milk"), ("todo_id", .str "client-id")]
    "srv-id" "T" ⟨"Buy milk", "", "pending"⟩ (by decide) (by decide)
  exact ⟨hc.1, hc.2.2.2.2.2.1, hc.2.2.2.2.2.2 [] "T" (by decide) (by decide)⟩

/-- C4 counterexample: the single-file list endpoint (the code the claim
cites) does NOT answer 400 for `?status=bogus`: it ignores the invalid filter,
answers 200, returns the unfiltered page, and reports a null status_filter. -/
theorem C4_counterexample :
    (sf_list_todos [("status", "bogus")] [exA]).code = 200 ∧
    sf_list_todos [("status", "bogus")] [exA] = ⟨[exA], 1, none⟩ := by
  constructor
  · rfl
  · decide

/-- C4 amended: the packaged list endpoint answers 400 with a message listing
the valid statuses whenever a non-empty `status` query parameter is not one of
pending/completed/archived; the single-file endpoint instead ignores the
invalid filter and answers 200 (see the counterexample). -/
theorem C4_amended (args : QueryArgs) (db : Store) (s : String)
    (hp : argGet args "status" = some s) (hne : s ≠ "")
    (hnv : ¬ VALID_STATUSES.contains s) :
    pkg_list_todos args db =
      .badStatus "Invalid status. Must be one of: pending, completed, archived" ∧
    (pkg_list_todos args db).code = 400 := by
  have h : pkg_list_todos args db =
      .badStatus "Invalid status. Must be one of: pending, completed, archived" := by
    unfold pkg_list_todos
    rw [hp]
    dsimp only
    rw [if_pos ⟨hne, hnv⟩]
  exact ⟨h, by rw [h]; rfl⟩

/-- C4 witness: GET `/todos?status=bogus` against the packaged endpoint. -/
theorem C4_witness :
    pkg_list_todos [("status", "bogus")] [exA] =
      .badStatus "Invalid status. Must be one of: pending, completed, archived" ∧
    (pkg_list_todos [("status", "bogus")] [exA]).code = 400 :=
  C4_amended [("status", "bogus")] [exA] "bogus" rfl (by decide) (by decide)

/-- C5 counterexample: the packaged list operation (`TodoDatabase.list_todos`
behind the packaged handler) returns the scanned page UNSORTED: with the older
item first in table order, the page comes back ascending, so the returned pair
violates created_at-descending order. -/
theorem C5_counterexample :
    pkg_list_todos [] [exA, exB] = .ok [exA, exB] 2 ∧
    ¬ caDesc exA exB := by
  constructor
  · decide
  · decide

/-- C5 amended: the single-file list endpoint, for every request whose
(lowercased) status filter is empty or invalid, performs a limit-bounded scan
and client-side sorts that page by created_at descending: the returned page is
exactly the stable descending sort of the scanned page — a permutation of the
page, sorted, with no claim about the rest of the dataset.  The packaged
adapter performs the same bounded scan but returns the page unsorted (see the
counterexample). -/
theorem C5_amended (args : QueryArgs) (db : Store)
    (h : pyLower (argGetD args "status" "") = "" ∨
         ¬ VALID_STATUSES.contains (pyLower (argGetD args "status" ""))) :
    (sf_list_todos args db).todos =
      (scan_limit db (parseLimit (argGetD args "limit" "50"))).insertionSort caDesc ∧
    List.Sorted caDesc (sf_list_todos args db).todos ∧
    (sf_list_todos args db).todos.Perm
      (scan_limit db (parseLimit (argGetD args "limit" "50"))) := by
  have hcond : ¬ (pyLower (argGetD args "status" "") ≠ "" ∧
      VALID_STATUSES.contains (pyLower (argGetD args "status" ""))) := by
    rcases h with h | h
    · exact fun hc => hc.1 h
    · exact fun hc => h hc.2
  have htodos : (sf_list_todos args db).todos =
      (scan_limit db (parseLimit (argGetD args "limit" "50"))).insertionSort caDesc := by
    unfold sf_list_todos
    dsimp only
    rw [if_neg hcond, if_pos h]
  refine ⟨htodos, ?_, ?_⟩
  · rw [htodos]
    exact List.sorted_insertionSort caDesc _
  · rw [htodos]
    exact List.perm_insertionSort caDesc _

/-- C5 witness: GET `/todos?status=bogus` on a two-item store in ascending
table order: the single-file endpoint returns the scanned page sorted newest
first. -/
theorem C5_witness :
    (sf_list_todos [("status", "bogus")] [exA, exB]).todos =
      (scan_limit [exA, exB] (parseLimit (argGetD [("status", "bogus")] "limit" "50"))).insertionSort caDesc ∧
    List.Sorted caDesc (sf_list_todos [("status", "bogus")] [exA, exB]).todos ∧
    (sf_list_todos [("status", "bogus")] [exA, exB]).todos.Perm
      (scan_limit [exA, exB] (parseLimit (argGetD [("status", "bogus")] "limit" "50"))) :=
  C5_amended [("status", "bogus")] [exA, exB] (Or.inr (by decide))

/-- C1 counterexample: the packaged validator accepts
`{"title": "  x  "}` and the record the packaged pipeline returns for it
(`TodoModel.from_dict`) carries the title UNtrimmed, so the accepted payload
does not yield a trimmed record. -/
theorem C1_counterexample :
    TodoModel_validate [("title", .str "  x  ")] false = .valid ∧
    TodoModel_from_dict [("title", .str "  x  ")] "gid" "ts" =
      some [("todo_id", .str "gid"), ("title", .str "  x  "),
            ("description", .str ""), ("status", .str "pending"),
            ("created_at", .str "ts"), ("updated_at", .str "ts")] ∧
    pyStrip "  x  " ≠ "  x  " := by
  refine ⟨by decide, by decide, by decide⟩

/-- C1 amended: for every payload the single-file validator
`validate_todo_data` accepts, the returned record's title and description are
exactly the `.strip()` of the corresponding payload fields (defaults `""`),
its status is the `.lower()` of the payload status (default `"pending"`) and
is one of pending/completed/archived.  The packaged pipeline
(`TodoModel.validate` + `TodoModel.from_dict`) performs no trimming (see the
counterexample), though any status it accepts is already one of the three
lowercase values. -/
theorem C1_amended (data : Obj) (r : ValidatedData)
    (h : validate_todo_data data = .ok r) :
    (∃ t, getStrOr data "title" "" = some t ∧ r.title = pyStrip t) ∧
    (∃ d, getStrOr data "description" "" = some d ∧ r.description = pyStrip d) ∧
    (∃ st, getStrOr data "status" "pending" = some st ∧ r.status = pyLower st) ∧
    VALID_STATUSES.contains r.status := by
  rcases validate_ok_inv data r h with ⟨t, d, st, ht, hd, hst, hr, -, -, -, hc⟩
  subst hr
  exact ⟨⟨t, ht, rfl⟩, ⟨d, hd, rfl⟩, ⟨st, hst, rfl⟩, hc⟩

/-- C1 witness: `validate_todo_data` on `{"title": "  Buy milk  ",
"status": "PENDING"}` returns the trimmed, lowercased record. -/
theorem C1_witness :
    (∃ t, getStrOr [("title", .str "  Buy milk  "), ("status", .str "PENDING")] "title" "" = some t ∧
       (ValidatedData.mk "Buy milk" "" "pending").title = pyStrip t) ∧
    (∃ d, getStrOr [("title", .str "  Buy milk  "), ("status", .str "PENDING")] "description" "" = some d ∧
       (ValidatedData.mk "Buy milk" "" "pending").description = pyStrip d) ∧
    (∃ st, getStrOr [("title", .str "  Buy milk  "), ("status", .str "PENDING")] "status" "pending" = some st ∧
       (ValidatedData.mk "Buy milk" "" "pending").status = pyLower st) ∧
    VALID_STATUSES.contains (ValidatedData.mk "Buy milk" "" "pending").status :=
  C1_amended [("title", .str "  Buy milk  "), ("status", .str "PENDING")]
    ⟨"Buy milk", "", "pending"⟩ (by decide)

set_option maxRecDepth 4000

/-- C2 counterexample: (i) the packaged validator accepts a whitespace-only
title on create — `"   "` is truthy and short, yet empty after trimming — so
"non-empty after trimming whitespace" fails; (ii) the single-file validator,
which also serves the update handler, fails a payload missing `title` with a
title error even on update, so "validation on update succeeds with respect to
title" fails there. -/
theorem C2_counterexample :
    TodoModel_validate [("title", .str "   ")] false = .valid ∧
    pyStrip "   " = "" ∧
    validate_todo_data [("description", .str "d")] = .err "Title is required" := by
  refine ⟨by decide, by decide, by decide⟩

/-- C2 amended: in the packaged validator `TodoModel.validate`, `title` is
required exactly when `is_update` is false — a payload without `title` fails
on create with "Title is required" and never fails with a title error on
update; a present title must be truthy (so non-empty, but whitespace-only
strings pass: there is no trimming) and at most 200 characters, with exactly
200 passing.  The single-file `validate_todo_data` has no update mode: it
demands a title that is non-empty after trimming and at most 200 characters
after trimming on create and update alike. -/
theorem C2_title_rules :
    (∀ data : Obj, oget data "title" = none →
       TodoModel_validate data false = .invalid "Title is required") ∧
    (∀ data : Obj, oget data "title" = none →
       TodoModel_validate data true ≠ .invalid "Title is required" ∧
       TodoModel_validate data true ≠
         .invalid "Title must be between 1 and 200 characters") ∧
    (∀ (data : Obj) (v : JVal) (u : Bool), oget data "title" = some v →
       TodoModel_validate data u = .valid →
       ∃ s, v = .str s ∧ s ≠ "" ∧ s.length ≤ 200) ∧
    TodoModel_validate [("title", .str (String.mk (List.replicate 200 'x')))]
      false = .valid ∧
    TodoModel_validate [("title", .str (String.mk (List.replicate 201 'x')))]
      false = .invalid "Title must be between 1 and 200 characters" ∧
    (∀ (data : Obj) (r : ValidatedData), validate_todo_data data = .ok r →
       ∃ t, getStrOr data "title" "" = some t ∧
         pyStrip t ≠ "" ∧ (pyStrip t).length ≤ 200) ∧
    (∀ data : Obj, oget data "title" = none →
       validate_todo_data data = .err "Title is required") := by
  refine ⟨?_, ?_, ?_, by decide, by decide, ?_, ?_⟩
  · exact mv_title_absent_create
  · intro data h
    rw [mv_title_absent_update data h]
    rcases mv_desc_forms data with h1 | h1 | h1 | h1 <;> rw [h1] <;>
      exact ⟨by decide, by decide⟩
  · exact mv_title_present_valid
  · intro data r h
    rcases validate_ok_inv data r h with ⟨t, _, _, ht, -, -, -, hne, hlen, -, -⟩
    exact ⟨t, ht, hne, hlen⟩
  · intro data h
    have hg : getStrOr data "title" "" = some "" := by
      unfold getStrOr
      rw [h]
    unfold validate_todo_data
    rw [hg]
    rfl

/-- C2 witness: the title rules applied at concrete payloads — a payload with
no title fails on create and passes the title checks on update in the
packaged validator, a 200-character title passes, and the single-file
validator rejects a missing title. -/
theorem C2_witness :
    TodoModel_validate [("description", .str "d")] false =
      .invalid "Title is required" ∧
    (TodoModel_validate [("description", .str "d")] true ≠
       .invalid "Title is required" ∧
     TodoModel_validate [("description", .str "d")] true ≠
       .invalid "Title must be between 1 and 200 characters") ∧
    (∃ s, JVal.str "ok" = .str s ∧ s ≠ "" ∧ s.length ≤ 200) ∧
    validate_todo_data [("description", .str "d")] = .err "Title is required" :=
  ⟨C2_title_rules.1 [("description", .str "d")] rfl,
   C2_title_rules.2.1 [("description", .str "d")] rfl,
   C2_title_rules.2.2.1 [("title", .str "ok")] (.str "ok") false rfl (by decide),
   C2_title_rules.2.2.2.2.2.2 [("description", .str "d")] rfl⟩

/-- C3 counterexample: the single-file update handler is a full replace, not a
partial update: updating `ex0` (description "keep me", status "completed")
with the payload `{"title": "new"}` — in which `description` and `status` are
absent — resets description to `""` and status to `"pending"`. -/
theorem C3_counterexample :
    oget ex0 "description" = some (.str "keep me") ∧
    oget ex0 "status" = some (.str "completed") ∧
    oget [("title", JVal.str "new")] "description" = none ∧
    oget [("title", JVal.str "new")] "status" = none ∧
    (sf_update_todo [ex0] "i1" [("title", .str "new")] "T2").2 =
      .ok [("todo_id", .str "i1"), ("title", .str "new"),
           ("description", .str ""), ("status", .str "pending"),
           ("created_at", .str "2023-01-01T00:00:00Z"),
           ("updated_at", .str "T2")] := by
  refine ⟨by decide, by decide, by decide, by decide, by decide⟩

/-- C3 amended: the PACKAGED update operation is the partial update the claim
describes: for an existing todo and a validated payload, the handler injects a
fresh `updated_at` and forwards the payload to the adapter, which SETs exactly
the payload's keys except `todo_id` and `created_at`; every field absent from
the payload keeps its prior value, `todo_id` and `created_at` are preserved
even when present in the payload, `updated_at` is refreshed, and the
post-update record is returned.  The single-file update handler instead
replaces title/description/status wholesale (see the counterexample), though
it too preserves `todo_id`/`created_at` and refreshes `updated_at`. -/
theorem C3_partial_update (db : Store) (id : String) (data : Obj) (ts : String)
    (existing : Obj)
    (hne : data ≠ []) (hval : TodoModel_validate data true = .valid)
    (hex : get_item db id = some existing)
    (hnd : (keys data).Nodup) :
    pkg_update_todo db id data ts =
      (put_item db (applyUpdates existing (dictSet data "updated_at" (.str ts))),
       .ok (applyUpdates existing (dictSet data "updated_at" (.str ts)))) ∧
    (∀ k, k ∉ keys data → k ≠ "updated_at" →
       oget (applyUpdates existing (dictSet data "updated_at" (.str ts))) k =
         oget existing k) ∧
    oget (applyUpdates existing (dictSet data "updated_at" (.str ts))) "todo_id" =
      oget existing "todo_id" ∧
    oget (applyUpdates existing (dictSet data "updated_at" (.str ts))) "created_at" =
      oget existing "created_at" ∧
    oget (applyUpdates existing (dictSet data "updated_at" (.str ts))) "updated_at" =
      some (.str ts) := by
  refine ⟨?_, ?_, ?_, ?_, ?_⟩
  · unfold pkg_update_todo
    rw [if_neg hne, hval, hex]
  · intro k hk hk2
    apply oget_applyUpdates_not_mem
    intro hmem
    rcases mem_keys_dictSet hmem with h | h
    · exact hk2 h
    · exact hk h
  · exact oget_applyUpdates_excluded _ _ _ (Or.inl rfl)
  · exact oget_applyUpdates_excluded _ _ _ (Or.inr rfl)
  · exact oget_applyUpdates_of_oget _ _ _ _ (nodup_keys_dictSet _ _ hnd)
      (by decide) (by decide) (oget_dictSet_self _ _ _)

/-- C3 witness: updating `ex0` with `{"title": "new"}` through the packaged
pipeline keeps the absent description and status, preserves id and
created_at, and refreshes updated_at. -/
theorem C3_witness :
    pkg_update_todo [ex0] "i1" [("title", JVal.str "new")] "T2" =
      (put_item [ex0]
        (applyUpdates ex0 (dictSet [("title", JVal.str "new")] "updated_at" (.str "T2"))),
       .ok (applyUpdates ex0 (dictSet [("title", JVal.str "new")] "updated_at" (.str "T2")))) ∧
    oget (applyUpdates ex0 (dictSet [("title", JVal.str "new")] "updated_at" (.str "T2")))
      "description" = oget ex0 "description" ∧
    oget (applyUpdates ex0 (dictSet [("title", JVal.str "new")] "updated_at" (.str "T2")))
      "created_at" = oget ex0 "created_at" ∧
    oget (applyUpdates ex0 (dictSet [("title", JVal.str "new")] "updated_at" (.str "T2")))
      "updated_at" = some (.str "T2") := by
  have hc := C3_partial_update [ex0] "i1" [("title", JVal.str "new")] "T2" ex0
    (by decide) (by decide) (by decide) (by decide)
  exact ⟨hc.1, hc.2.1 "description" (by decide) (by decide), hc.2.2.2.1, hc.2.2.2.2⟩

/-- C8 counterexample: the packaged create path persists a non-string field
value: `{"title": "x", "description": 0}` passes `TodoModel.validate` (a falsy
description short-circuits the length check) and `TodoModel.from_dict` stores
the description as the number 0 — the written item is not all string-valued. -/
theorem C8_counterexample :
    TodoModel_validate [("title", .str "x"), ("description", .num 0)] false = .valid ∧
    TodoModel_from_dict [("title", .str "x"), ("description", .num 0)] "g" "t" =
      some [("todo_id", .str "g"), ("title", .str "x"), ("description", .num 0),
            ("status", .str "pending"), ("created_at", .str "t"),
            ("updated_at", .str "t")] ∧
    (JVal.num 0).isStr = false := by
  refine ⟨by decide, by decide, rfl⟩

/-- C8 amended: items written by the single-file create and update handlers
have exactly the fields {todo_id, title, description, status, created_at,
updated_at} (`todo_id` realizes the spec's abstract `id`), all string-valued
(the update's `created_at` inherits the existing item's string timestamp).
The packaged `from_dict` writes the same field set but may carry a falsy
non-string description (see the counterexample), and the packaged update can
write extra payload keys (claim C9). -/
theorem C8_written_field_set :
    (∀ (gid now : String) (v : ValidatedData),
       keys (create_todo_item gid v now) =
         ["todo_id", "title", "description", "status", "created_at", "updated_at"] ∧
       ∀ p ∈ create_todo_item gid v now, (p.2).isStr = true) ∧
    (∀ (db : Store) (id : String) (data : Obj) (now : String) (v : ValidatedData)
       (existing : Obj) (ca : String),
       validate_todo_data data = .ok v →
       get_item db id = some existing →
       oget existing "created_at" = some (.str ca) →
       (sf_update_todo db id data now).2 =
         .ok [("todo_id", .str id), ("title", .str v.title),
              ("description", .str v.description), ("status", .str v.status),
              ("created_at", .str ca), ("updated_at", .str now)] ∧
       keys ([("todo_id", JVal.str id), ("title", .str v.title),
              ("description", .str v.description), ("status", .str v.status),
              ("created_at", .str ca), ("updated_at", .str now)] : Obj) =
         ["todo_id", "title", "description", "status", "created_at", "updated_at"] ∧
       ∀ p ∈ ([("todo_id", JVal.str id), ("title", .str v.title),
               ("description", .str v.description), ("status", .str v.status),
               ("created_at", .str ca), ("updated_at", .str now)] : Obj),
         (p.2).isStr = true) ∧
    (∀ (data : Obj) (g t : String) (item : Obj),
       TodoModel_from_dict data g t = some item →
       keys item =
         ["todo_id", "title", "description", "status", "created_at", "updated_at"]) := by
  refine ⟨?_, ?_, ?_⟩
  · intro gid now v
    refine ⟨rfl, ?_⟩
    intro p hp
    simp only [create_todo_item, List.mem_cons, List.not_mem_nil, or_false] at hp
    rcases hp with rfl | rfl | rfl | rfl | rfl | rfl <;> rfl
  · intro db id data now v existing ca hok hex hca
    refine ⟨?_, rfl, ?_⟩
    · unfold sf_update_todo
      rw [hok]
      dsimp only
      rw [hex]
      dsimp only
      rw [hca]
    · intro p hp
      simp only [List.mem_cons, List.not_mem_nil, or_false] at hp
      rcases hp with rfl | rfl | rfl | rfl | rfl | rfl <;> rfl
  · intro data g t item h
    unfold TodoModel_from_dict at h
    rcases hval : TodoModel_validate data false with _ | m | _ <;> rw [hval] at h <;>
      dsimp only at h
    · rcases ht : oget data "title" with _ | tv <;> rw [ht] at h <;> dsimp only at h
      · exact absurd h (by simp)
      · injection h with h
        rw [← h]
        rfl
    · exact absurd h (by simp)
    · exact absurd h (by simp)

/-- C8 witness: the single-file update of `ex0` with a validated payload
writes the six-field all-string item. -/
theorem C8_witness :
    (sf_update_todo [ex0] "i1" [("title", JVal.str "new")] "T2").2 =
      .ok [("todo_id", .str "i1"), ("title", .str "new"),
           ("description", .str ""), ("status", .str "pending"),
           ("created_at", .str "2023-01-01T00:00:00Z"), ("updated_at", .str "T2")] ∧
    keys ([("todo_id", JVal.str "i1"), ("title", .str "new"),
           ("description", .str ""), ("status", .str "pending"),
           ("created_at", .str "2023-01-01T00:00:00Z"), ("updated_at", .str "T2")] : Obj) =
      ["todo_id", "title", "description", "status", "created_at", "updated_at"] := by
  have hc := C8_written_field_set.2.1 [ex0] "i1" [("title", JVal.str "new")] "T2"
    ⟨"new", "", "pending"⟩ ex0 "2023-01-01T00:00:00Z" (by decide) (by decide) (by decide)
  exact ⟨hc.1, hc.2.1⟩

/-- C9: in the packaged implementation the update handler forwards the raw
payload (plus the injected `updated_at`) to the store adapter, which SETs
every payload key except `todo_id` and `created_at` onto the stored item — so
any client-supplied key outside {title, description, status} (other than the
excluded two and the overwritten `updated_at`) is persisted onto the record
with its payload value. -/
theorem C9_extra_keys_persisted (db : Store) (id : String) (data : Obj)
    (ts : String) (existing : Obj)
    (hne : data ≠ []) (hval : TodoModel_validate data true = .valid)
    (hex : get_item db id = some existing) (hnd : (keys data).Nodup) :
    (pkg_update_todo db id data ts).2 =
      .ok (applyUpdates existing (dictSet data "updated_at" (.str ts))) ∧
    ∀ k v, k ≠ "todo_id" → k ≠ "created_at" → k ≠ "updated_at" →
      oget data k = some v →
      oget (applyUpdates existing (dictSet data "updated_at" (.str ts))) k =
        some v := by
  constructor
  · have h : pkg_update_todo db id data ts =
        (put_item db (applyUpdates existing (dictSet data "updated_at" (.str ts))),
         .ok (applyUpdates existing (dictSet data "updated_at" (.str ts)))) := by
      unfold pkg_update_todo
      rw [if_neg hne, hval, hex]
    rw [h]
  · intro k v h1 h2 h3 hv
    apply oget_applyUpdates_of_oget _ _ _ _ (nodup_keys_dictSet _ _ hnd) h1 h2
    rw [oget_dictSet_ne _ _ _ _ h3]
    exact hv

/-- C9 witness: updating `ex0` with `{"title": "new", "priority": "high"}`
persists the extra `priority` key onto the stored record. -/
theorem C9_witness :
    (pkg_update_todo [ex0] "i1"
        [("title", JVal.str "new"), ("priority", JVal.str "high")] "T2").2 =
      .ok (applyUpdates ex0
        (dictSet [("title", JVal.str "new"), ("priority", JVal.str "high")]
          "updated_at" (.str "T2"))) ∧
    oget (applyUpdates ex0
        (dictSet [("title", JVal.str "new"), ("priority", JVal.str "high")]
          "updated_at" (.str "T2"))) "priority" = some (.str "high") := by
  have hc := C9_extra_keys_persisted [ex0] "i1"
    [("title", JVal.str "new"), ("priority", JVal.str "high")] "T2" ex0
    (by decide) (by decide) (by decide) (by decide)
  exact ⟨hc.1, hc.2 "priority" (.str "high") (by decide) (by decide) (by decide)
    (by decide)⟩

/-- C10 counterexample: the claim is not true of EVERY payload with a
non-string title or description: when an earlier validation check fails first,
the client gets 400, not 500.  `{"title": "", "description": 5}` has a
non-string description, yet `validate_todo_data` raises the
`TodoValidationError` "Title is required" before ever touching the
description, and the create handler answers 400. -/
theorem C10_counterexample :
    (JVal.num 5).isStr = false ∧
    validate_todo_data [("title", .str ""), ("description", .num 5)] =
      .err "Title is required" ∧
    ((sf_create_todo [] [("title", .str ""), ("description", .num 5)] "g" "T").2).code
      = 400 := by
  refine ⟨rfl, by decide, by decide⟩

/-- C10 amended: `validate_todo_data` raises an uncaught `AttributeError` from
`.strip()` — and the create and update handlers fall into their generic
exception branch and answer 500, leaving the store untouched — whenever (i)
`title` is present and not a string, or (ii) `title` passes its checks (a
string, non-empty and at most 200 characters after trimming) and
`description` is present and not a string.  When an earlier check fails
first (e.g. an empty title alongside a non-string description), a
`TodoValidationError` wins and the client receives 400 instead (see the
counterexample). -/
theorem C10_nonstring_fields_500 :
    (∀ (data : Obj) (v : JVal), oget data "title" = some v → v.isStr = false →
       validate_todo_data data = .attrError ∧
       ∀ (db : Store) (gid now id : String),
         sf_create_todo db data gid now = (db, .serverErr) ∧
         ((sf_create_todo db data gid now).2).code = 500 ∧
         sf_update_todo db id data now = (db, .serverErr) ∧
         ((sf_update_todo db id data now).2).code = 500) ∧
    (∀ (data : Obj) (t : String) (v : JVal),
       oget data "title" = some (.str t) →
       pyStrip t ≠ "" → (pyStrip t).length ≤ 200 →
       oget data "description" = some v → v.isStr = false →
       validate_todo_data data = .attrError ∧
       ∀ (db : Store) (gid now id : String),
         sf_create_todo db data gid now = (db, .serverErr) ∧
         sf_update_todo db id data now = (db, .serverErr)) := by
  constructor
  · intro data v hv hns
    have hval : validate_todo_data data = .attrError := by
      have hg : getStrOr data "title" "" = none := by
        unfold getStrOr
        rw [hv]
        rcases v with s | n | b | _ <;> first | rfl | exact absurd hns (by simp [JVal.isStr])
      unfold validate_todo_data
      rw [hg]
    refine ⟨hval, ?_⟩
    intro db gid now id
    have hc : sf_create_todo db data gid now = (db, .serverErr) := by
      unfold sf_create_todo
      rw [hval]
    have hu : sf_update_todo db id data now = (db, .serverErr) := by
      unfold sf_update_todo
      rw [hval]
    exact ⟨hc, by rw [hc]; rfl, hu, by rw [hu]; rfl⟩
  · intro data t v ht hne hlen hd hns
    have hval : validate_todo_data data = .attrError := by
      have hg : getStrOr data "title" "" = some t := by
        unfold getStrOr
        rw [ht]
      have hgd : getStrOr data "description" "" = none := by
        unfold getStrOr
        rw [hd]
        rcases v with s | n | b | _ <;> first | rfl | exact absurd hns (by simp [JVal.isStr])
      unfold validate_todo_data
      rw [hg]
      dsimp only
      rw [if_neg hne, if_neg (by omega), hgd]
    refine ⟨hval, ?_⟩
    intro db gid now id
    constructor
    · unfold sf_create_todo
      rw [hval]
    · unfold sf_update_todo
      rw [hval]

/-- C10 witness: a numeric title (create) and a numeric description under a
valid title (update) both surface as 500, and the validator reports the
uncaught-exception outcome, not a validation message. -/
theorem C10_witness :
    validate_todo_data [("title", .num 7)] = .attrError ∧
    sf_create_todo [] [("title", .num 7)] "g" "T" = ([], .serverErr) ∧
    validate_todo_data [("title", .str "ok"), ("description", .bool true)] =
      .attrError ∧
    sf_update_todo [] "i" [("title", .str "ok"), ("description", .bool true)] "T" =
      ([], .serverErr) := by
  have h1 := C10_nonstring_fields_500.1 [("title", .num 7)] (.num 7) rfl rfl
  have h2 := C10_nonstring_fields_500.2 [("title", .str "ok"), ("description", .bool true)]
    "ok" (.bool true) rfl (by decide) (by decide) rfl rfl
  exact ⟨h1.1, (h1.2 [] "g" "T" "i").1, h2.1, (h2.2 [] "g" "T" "i").2⟩
